import Mathlib

/-!
Shallow embedding of the seer grouping-records backfill pipeline from
src/sentry/tasks/embeddings_grouping/backfill_seer_grouping_records_for_project.py.

The task body is modelled as a pure function from an environment of
collaborator oracles (options, project store, snuba, nodestore, seer,
cohort registry) to a trace of observable effects (record deletion, seer
calls, group updates, task enqueues, log lines).  Helpers that live in
sentry.tasks.embeddings_grouping.utils are not part of the given sources;
where their behaviour matters they are modelled from the spec and marked
as such in their doc comments.
-/

namespace Backfill

/-- The `cohort` task argument: `str | list[int] | None` in the source. -/
inductive Cohort where
  | noCohort : Cohort
  | name (s : String) : Cohort
  | ids (l : List Nat) : Cohort
  deriving DecidableEq, Repr

/-- Python truthiness of the `cohort` argument: `None`, the empty string and
the empty list are falsy (`if not cohort:` in `call_next_backfill`). -/
def Cohort.falsy : Cohort → Bool
  | .noCohort => true
  | .name s => s.isEmpty
  | .ids l => l.isEmpty

/-- Observable effects of one task invocation, in program order. -/
inductive Effect where
  | log (msg : String) : Effect
  | deleteRecords (projectId : Nat) : Effect
  | seerCall (multithreaded : Bool) (groupIds : List Nat) (projectId : Nat) : Effect
  | updateGroups (projectId : Nat) (groupIds : List Nat) : Effect
  | captureException : Effect
  | enqueue (projectId : Nat) (lastProcessedGroupId : Option Nat) (cohort : Cohort)
      (lastProcessedProjectIndex : Option Nat) (onlyDelete : Bool)
      (enableIngestion : Bool) : Effect
  deriving DecidableEq, Repr

/-- Outcome of `initialize_backfill` (defined in
sentry.tasks.embeddings_grouping.utils, outside the given sources): it either
returns `(project, last_processed_group_id, last_processed_project_index)`,
raises `FeatureError`, or raises `Project.DoesNotExist`. -/
inductive InitOutcome where
  | ok (lastProcessedGroupId : Option Nat) (lastProcessedProjectIndex : Option Nat) :
      InitOutcome
  | featureError : InitOutcome
  | doesNotExist : InitOutcome
  deriving DecidableEq, Repr

/-- Response shape of the seer similarity senders: an overall success flag, an
optional failure reason, and a group-id-to-outcome mapping kept as the
association list in which results were joined. -/
structure SeerResponse where
  success : Bool
  reason : Option String
  results : List (Nat × Nat)
  deriving DecidableEq, Repr

/-- Modelled from the spec: `send_group_and_stacktrace_to_seer` (in
sentry.tasks.embeddings_grouping.utils, outside the given sources) is the
sequential sender: one similarity call per group, in batch order; the overall
call succeeds iff every per-group call succeeded, and `reason` is populated
exactly on failure.  The per-group service outcome is the oracle `svc`
(`none` meaning that the call for that group failed). -/
def send_group_and_stacktrace_to_seer (svc : Nat → Option Nat)
    (groupIds : List Nat) : SeerResponse :=
  { success := groupIds.all fun g => (svc g).isSome
    reason := if groupIds.all (fun g => (svc g).isSome) then none
              else some "Seer failed during backfill"
    results := groupIds.filterMap fun g => (svc g).map fun o => (g, o) }

/-- Modelled from the spec: `send_group_and_stacktrace_to_seer_multithreaded`
(outside the given sources) fans the per-group calls out to a bounded worker
pool and joins the results into the group-to-outcome mapping in worker
completion order; all dispatched workers are drained, and any per-group
failure makes the overall call fail.  `completion` is the order in which the
workers finished, a permutation of the dispatched group ids. -/
def send_group_and_stacktrace_to_seer_multithreaded (svc : Nat → Option Nat)
    (completion : List Nat) : SeerResponse :=
  { success := completion.all fun g => (svc g).isSome
    reason := if completion.all (fun g => (svc g).isSome) then none
              else some "Seer failed during backfill"
    results := completion.filterMap fun g => (svc g).map fun o => (g, o) }

/-- Environment of collaborator oracles for one task invocation.  Each field
stands for an external service or option read the task performs; the task
itself never mutates them. -/
structure Env where
  /-- `options.get("seer.similarity-backfill-killswitch.enabled")`. -/
  globalKillswitch : Bool
  /-- `killswitch_enabled(current_project_id)` from sentry.seer.similarity.utils. -/
  projectKillswitch : Nat → Bool
  /-- Outcome of `initialize_backfill(project_id, group_id, project_index)`. -/
  init : Nat → Option Nat → Option Nat → InitOutcome
  /-- `options.get("embeddings-grouping.seer.backfill-batch-size")`. -/
  batchSize : Nat
  /-- `get_current_batch_groups_from_postgres(project, cursor, batch_size,
  enable_ingestion)`: the page of ungrouped group ids and `batch_end_id`. -/
  getBatch : Nat → Option Nat → Nat → Bool → List Nat × Option Nat
  /-- Modelled from the spec: which group ids have a row in the columnar event
  index; `filter_snuba_results` (outside the given sources) keeps exactly the
  groups with a snuba row. -/
  snubaHasRow : Nat → Bool
  /-- Modelled from the spec: which group ids resolve an event in the detail
  blob store; `get_events_from_nodestore` (outside the given sources) keeps an
  entry in `group_hashes_dict` exactly for the groups with such an event. -/
  nodestoreHasEvent : Nat → Bool
  /-- `options.get("similarity.backfill_seer_threads")`. -/
  seerThreads : Nat
  /-- Per-group seer similarity call outcome (`none` meaning failure). -/
  svc : Nat → Option Nat
  /-- Worker completion order of the pool, as a function of the dispatched
  group ids. -/
  completionOrder : List Nat → List Nat
  /-- `settings.SIMILARITY_BACKFILL_COHORT_MAP.get(name, [])`. -/
  cohortMap : String → List Nat

/-- Modelled from the spec: `filter_snuba_results` (outside the given sources)
returns the sub-batch of groups that have a row in the columnar event index. -/
def filter_snuba_results (env : Env) (groups : List Nat) : List Nat :=
  groups.filter env.snubaHasRow

/-- Modelled from the spec: the keys of `group_hashes_dict` returned by
`get_events_from_nodestore` (outside the given sources) are exactly the
snuba-surviving groups whose event resolves in the detail blob store. -/
def nodestore_group_hashes (env : Env) (groupsWithRow : List Nat) : List Nat :=
  groupsWithRow.filter env.nodestoreHasEvent

/-- Modelled from the spec: `get_project_for_batch` (outside the given
sources) advances `last_processed_project_index` by one and picks the project
id at the new index, producing no project id when the new index runs past the
end of the cohort project list. -/
def get_project_for_batch (lastProcessedProjectIndex : Option Nat)
    (cohortProjects : List Nat) : Option Nat × Option Nat :=
  match lastProcessedProjectIndex with
  | none => (none, none)
  | some i =>
      match cohortProjects.get? (i + 1) with
      | some pid => (some pid, some (i + 1))
      | none => (none, some (i + 1))

/-- The cohort project list used by `call_next_backfill`: a named cohort is
resolved through `settings.SIMILARITY_BACKFILL_COHORT_MAP.get(cohort, [])`,
an explicit id list is used as is. -/
def cohortProjectsOf (env : Env) : Cohort → List Nat
  | .noCohort => []
  | .name s => env.cohortMap s
  | .ids l => l

/-- Embedding of `call_next_backfill` (lines 217 to 284 of the source):
with a group cursor it re-enqueues the same project at that cursor; with a
null cursor it terminates when no cohort was supplied, otherwise resolves the
cohort project list, advances the project index, and either enqueues the next
project or terminates at the end of the list. -/
def call_next_backfill (env : Env) (last_processed_group_id : Option Nat)
    (project_id : Nat) (last_processed_project_index : Option Nat)
    (cohort : Cohort) (only_delete : Bool) (enable_ingestion : Bool) :
    List Effect :=
  match last_processed_group_id with
  | some gid =>
      [.log "calling next backfill task",
       .enqueue project_id (some gid) cohort last_processed_project_index
         only_delete enable_ingestion]
  | none =>
      if cohort.falsy then
        [.log "backfill finished, no cohort"]
      else
        match get_project_for_batch last_processed_project_index
            (cohortProjectsOf env cohort) with
        | (none, _) => [.log "reached the end of the project list"]
        | (some batch_project_id, idx) =>
            [.enqueue batch_project_id none cohort idx only_delete
               enable_ingestion]

/-- The list comprehension of lines 164 to 168 of the source: the snuba-row
survivors that also have an entry in `group_hashes_dict`
(`groups_to_backfill_with_no_embedding_has_snuba_row_and_nodestore_row`). -/
def groups_has_snuba_row_and_nodestore_row (env : Env)
    (groupsWithRow : List Nat) : List Nat :=
  groupsWithRow.filter fun g => g ∈ nodestore_group_hashes env groupsWithRow

/-- Result of one task invocation: its effect trace, either completing
normally or aborting on the failed `assert` in the missing-project branch. -/
inductive TaskResult where
  | ok (effects : List Effect) : TaskResult
  | assertionError (effects : List Effect) : TaskResult
  deriving DecidableEq, Repr

/-- The effects emitted before the invocation ended, however it ended. -/
def TaskResult.effects : TaskResult → List Effect
  | .ok t => t
  | .assertionError t => t

/-- Whether the invocation completed without raising. -/
def TaskResult.isOk : TaskResult → Bool
  | .ok _ => true
  | .assertionError _ => false

/-- The seer dispatch of lines 170 to 181 of the source: the multithreaded
sender is used exactly when `options.get("similarity.backfill_seer_threads")`
exceeds 1, otherwise the sequential sender, both on the same eligible group
ids, nodestore snapshots and project id. -/
def seerStep (env : Env) (eligibleGroupIds : List Nat) : SeerResponse :=
  if env.seerThreads > 1 then
    send_group_and_stacktrace_to_seer_multithreaded env.svc
      (env.completionOrder eligibleGroupIds)
  else
    send_group_and_stacktrace_to_seer env.svc eligibleGroupIds

/-- Embedding of the task body `backfill_seer_grouping_records_for_project`
(lines 41 to 214 of the source), as a function from the collaborator oracles
and the task arguments to the trace of effects. -/
def backfill_seer_grouping_records_for_project (env : Env)
    (current_project_id : Nat) (last_processed_group_id_input : Option Nat)
    (cohort : Cohort) (last_processed_project_index_input : Option Nat)
    (only_delete : Bool) (enable_ingestion : Bool) : TaskResult :=
  if env.globalKillswitch || env.projectKillswitch current_project_id then
    .ok [.log "backfill_seer_grouping_records.killswitch_enabled"]
  else
    let l0 : List Effect := [.log "backfill_seer_grouping_records"]
    match env.init current_project_id last_processed_group_id_input
        last_processed_project_index_input with
    | .featureError =>
        .ok (l0 ++ [.log "backfill_seer_grouping_records.no_feature"])
    | .doesNotExist =>
        let l1 := l0 ++ [.log "backfill_seer_grouping_records.project_does_not_exist"]
        match last_processed_project_index_input with
        | none => .assertionError l1
        | some idx =>
            .ok (l1 ++ call_next_backfill env none current_project_id
              (some idx) cohort only_delete enable_ingestion)
    | .ok last_processed_group_id last_processed_project_index =>
        if only_delete then
          .ok (l0 ++ [.deleteRecords current_project_id,
                .log "backfill_seer_grouping_records.deleted_all_records"] ++
            call_next_backfill env none current_project_id
              last_processed_project_index cohort only_delete enable_ingestion)
        else
          let gb := env.getBatch current_project_id last_processed_group_id
            env.batchSize enable_ingestion
          let groups_to_backfill_with_no_embedding := gb.1
          let batch_end_id := gb.2
          if groups_to_backfill_with_no_embedding.length = 0 then
            .ok (l0 ++ call_next_backfill env batch_end_id current_project_id
              last_processed_project_index cohort false enable_ingestion)
          else
            let groups_with_snuba_row :=
              filter_snuba_results env groups_to_backfill_with_no_embedding
            if groups_with_snuba_row.length = 0 then
              .ok (l0 ++ call_next_backfill env batch_end_id current_project_id
                last_processed_project_index cohort false enable_ingestion)
            else
              let group_hashes := nodestore_group_hashes env groups_with_snuba_row
              if group_hashes.isEmpty then
                .ok (l0 ++ call_next_backfill env batch_end_id current_project_id
                  last_processed_project_index cohort false enable_ingestion)
              else
                let eligible :=
                  groups_has_snuba_row_and_nodestore_row env groups_with_snuba_row
                let seer_response := seerStep env eligible
                let l2 := l0 ++
                  [.seerCall (env.seerThreads > 1) eligible current_project_id]
                if !seer_response.success then
                  .ok (l2 ++ [.log "backfill_seer_grouping_records.seer_failed",
                    .captureException])
                else
                  .ok (l2 ++ [.updateGroups current_project_id eligible,
                    .log "about to call next backfill"] ++
                    call_next_backfill env batch_end_id current_project_id
                      last_processed_project_index cohort false enable_ingestion)

/-! ### Concrete environments for evaluating the theorems -/

/-- A concrete environment with the global killswitch tripped. -/
def envGlobalKill : Env :=
  { globalKillswitch := true
    projectKillswitch := fun _ => false
    init := fun _ g i => .ok g i
    batchSize := 10
    getBatch := fun _ _ _ _ => ([], none)
    snubaHasRow := fun _ => true
    nodestoreHasEvent := fun _ => true
    seerThreads := 1
    svc := fun g => some g
    completionOrder := fun l => l
    cohortMap := fun _ => [] }

/-- A concrete environment whose project lookup raises `DoesNotExist`. -/
def envNoProject : Env :=
  { globalKillswitch := false
    projectKillswitch := fun _ => false
    init := fun _ _ _ => .doesNotExist
    batchSize := 10
    getBatch := fun _ _ _ _ => ([], none)
    snubaHasRow := fun _ => true
    nodestoreHasEvent := fun _ => true
    seerThreads := 1
    svc := fun g => some g
    completionOrder := fun l => l
    cohortMap := fun _ => [] }

/-- A concrete environment for the normal pipeline paths: a four-group batch
in which group 2 has no snuba row, group 3 no nodestore event, the seer call
for group 5 fails, and the worker pool finishes in reverse order. -/
def envRun : Env :=
  { globalKillswitch := false
    projectKillswitch := fun _ => false
    init := fun _ g i => .ok g i
    batchSize := 4
    getBatch := fun _ _ _ _ => ([1, 2, 3, 5], some 5)
    snubaHasRow := fun g => g ≠ 2
    nodestoreHasEvent := fun g => g ≠ 3
    seerThreads := 4
    svc := fun g => if g = 5 then none else some (g + 100)
    completionOrder := fun l => l.reverse
    cohortMap := fun _ => [10, 20] }

/-- A concrete environment whose batch selection yields no ungrouped groups. -/
def envEmptyBatch : Env :=
  { globalKillswitch := false
    projectKillswitch := fun _ => false
    init := fun _ g i => .ok g i
    batchSize := 10
    getBatch := fun _ _ _ _ => ([], none)
    snubaHasRow := fun _ => true
    nodestoreHasEvent := fun _ => true
    seerThreads := 1
    svc := fun g => some g
    completionOrder := fun l => l
    cohortMap := fun _ => [] }

/-! ### Helper lemmas -/

/-- Every effect emitted by `call_next_backfill` is a log line or a task
enqueue; it never calls seer, updates groups, deletes records or captures an
exception. -/
theorem call_next_backfill_shape (env : Env) (gid : Option Nat) (pid : Nat)
    (idx : Option Nat) (cohort : Cohort) (od ei : Bool) :
    ∀ e ∈ call_next_backfill env gid pid idx cohort od ei,
      (∃ m, e = .log m) ∨
      (∃ p g c i o en, e = .enqueue p g c i o en) := by
  intro e he
  cases gid with
  | some g =>
      simp only [call_next_backfill, List.mem_cons, List.not_mem_nil,
        or_false] at he
      rcases he with rfl | rfl
      · exact .inl ⟨_, rfl⟩
      · exact .inr ⟨_, _, _, _, _, _, rfl⟩
  | none =>
      by_cases hf : cohort.falsy
      · simp only [call_next_backfill, hf, if_true, List.mem_cons,
          List.not_mem_nil, or_false] at he
        exact .inl ⟨_, he⟩
      · rcases hgp : get_project_for_batch idx (cohortProjectsOf env cohort)
          with ⟨b, i⟩
        cases b with
        | none =>
            simp only [call_next_backfill, hf, if_false, hgp, Bool.false_eq_true,
              List.mem_cons, List.not_mem_nil, or_false] at he
            exact .inl ⟨_, he⟩
        | some pid2 =>
            simp only [call_next_backfill, hf, if_false, hgp, Bool.false_eq_true,
              List.mem_cons, List.not_mem_nil, or_false] at he
            exact .inr ⟨_, _, _, _, _, _, he⟩

/-- `call_next_backfill` never produces a seer call. -/
theorem seerCall_not_mem_call_next (env : Env) (gid : Option Nat) (pid : Nat)
    (idx : Option Nat) (cohort : Cohort) (od ei : Bool) (b : Bool)
    (gs : List Nat) (p : Nat) :
    Effect.seerCall b gs p ∉ call_next_backfill env gid pid idx cohort od ei := by
  intro h
  rcases call_next_backfill_shape env gid pid idx cohort od ei _ h with
    ⟨m, hm⟩ | ⟨p', g', c', i', o', en', hm⟩ <;> cases hm

/-- `call_next_backfill` never updates groups. -/
theorem updateGroups_not_mem_call_next (env : Env) (gid : Option Nat)
    (pid : Nat) (idx : Option Nat) (cohort : Cohort) (od ei : Bool)
    (gs : List Nat) (p : Nat) :
    Effect.updateGroups p gs ∉ call_next_backfill env gid pid idx cohort od ei := by
  intro h
  rcases call_next_backfill_shape env gid pid idx cohort od ei _ h with
    ⟨m, hm⟩ | ⟨p', g', c', i', o', en', hm⟩ <;> cases hm

/-- The doubly filtered batch equals one filter by the conjunction of the two
store predicates. -/
theorem groups_has_both_rows_eq (env : Env) (groups : List Nat) :
    groups_has_snuba_row_and_nodestore_row env (filter_snuba_results env groups)
      = groups.filter fun g =>
          env.snubaHasRow g && env.nodestoreHasEvent g := by
  unfold groups_has_snuba_row_and_nodestore_row nodestore_group_hashes
    filter_snuba_results
  rw [List.filter_congr
    (fun g hg => show (decide (g ∈ (groups.filter env.snubaHasRow).filter
        env.nodestoreHasEvent)) = env.nodestoreHasEvent g by
      rw [List.mem_filter] at hg
      cases hnd : env.nodestoreHasEvent g <;>
        simp [List.mem_filter, hg.1, hg.2, hnd])]
  rw [List.filter_filter]
  exact List.filter_congr fun a _ => Bool.and_comm _ _

/-- `List.all` is invariant under permutation of the list. -/
theorem all_eq_of_perm {l l' : List Nat} (p : Nat → Bool) (h : l.Perm l') :
    l.all p = l'.all p := by
  rw [Bool.eq_iff_iff]
  simp only [List.all_eq_true]
  exact ⟨fun H x hx => H x (h.mem_iff.mpr hx),
    fun H x hx => H x (h.mem_iff.mp hx)⟩

/-- A lookup misses exactly when the key is absent from the key column. -/
theorem lookup_eq_none_iff {l : List (Nat × Nat)} {a : Nat} :
    List.lookup a l = none ↔ a ∉ l.map Prod.fst := by
  induction l with
  | nil => simp [List.lookup]
  | cons x xs ih =>
      obtain ⟨k, v⟩ := x
      by_cases h : a = k
      · subst h; simp [List.lookup]
      · simp [List.lookup, beq_false_of_ne h, ih, h]

/-- A successful lookup result is a member of the association list. -/
theorem mem_of_lookup_eq_some {l : List (Nat × Nat)} {a v : Nat}
    (h : List.lookup a l = some v) : (a, v) ∈ l := by
  induction l with
  | nil => simp [List.lookup] at h
  | cons x xs ih =>
      obtain ⟨k, w⟩ := x
      by_cases hak : a = k
      · subst hak
        simp [List.lookup] at h
        subst h
        exact List.mem_cons_self _ _
      · rw [show List.lookup a ((k, w) :: xs) = List.lookup a xs by
          simp [List.lookup, beq_false_of_ne hak]] at h
        exact List.mem_cons_of_mem _ (ih h)

/-- With no duplicate keys, membership determines the lookup result. -/
theorem lookup_eq_some_of_mem {l : List (Nat × Nat)} {a v : Nat}
    (hnd : (l.map Prod.fst).Nodup) (hmem : (a, v) ∈ l) :
    List.lookup a l = some v := by
  induction l with
  | nil => simp at hmem
  | cons x xs ih =>
      obtain ⟨k, w⟩ := x
      rw [List.map_cons, List.nodup_cons] at hnd
      rcases List.mem_cons.mp hmem with h | h
      · obtain ⟨rfl, rfl⟩ := Prod.mk.injEq .. ▸ h
        simp [List.lookup]
      · have hak : a ≠ k := by
          rintro rfl
          exact hnd.1 (List.mem_map.mpr ⟨(a, v), h, rfl⟩)
        rw [show List.lookup a ((k, w) :: xs) = List.lookup a xs by
          simp [List.lookup, beq_false_of_ne hak]]
        exact ih hnd.2 h

/-- Permuting an association list with duplicate-free keys does not change
any lookup. -/
theorem lookup_eq_of_perm {l l' : List (Nat × Nat)} (h : l.Perm l')
    (hnd : (l.map Prod.fst).Nodup) (a : Nat) :
    List.lookup a l = List.lookup a l' := by
  have hnd' : (l'.map Prod.fst).Nodup := ((h.map Prod.fst).nodup_iff).mp hnd
  cases hl : List.lookup a l with
  | none =>
      symm
      rw [lookup_eq_none_iff] at hl ⊢
      exact fun hmem => hl ((h.map Prod.fst).mem_iff.mpr hmem)
  | some v =>
      symm
      exact lookup_eq_some_of_mem hnd' (h.mem_iff.mp (mem_of_lookup_eq_some hl))

/-- The key column of a sender result list is the sub-batch of groups whose
per-group call succeeded. -/
theorem map_fst_seer_results (svc : Nat → Option Nat) (l : List Nat) :
    (l.filterMap fun g => (svc g).map fun o => (g, o)).map Prod.fst
      = l.filter fun g => (svc g).isSome := by
  induction l with
  | nil => rfl
  | cons x xs ih =>
      cases h : svc x with
      | none => simp [List.filterMap_cons, h, List.filter_cons, ih]
      | some o => simp [List.filterMap_cons, h, List.filter_cons, ih]

/-! ### Claim theorems -/

/-- C3: if the global backfill killswitch option is enabled or the per-project
killswitch predicate holds for the current project, the task is a no-op: its
whole trace is the killswitch log line, so it selects no batch, deletes no
records, calls no similarity service, writes no results and schedules no
continuation, for every value of `only_delete`. -/
theorem killswitch_makes_task_noop (env : Env) (pid : Nat) (gin : Option Nat)
    (cohort : Cohort) (iin : Option Nat) (od ei : Bool)
    (h : env.globalKillswitch = true ∨ env.projectKillswitch pid = true) :
    backfill_seer_grouping_records_for_project env pid gin cohort iin od ei
      = .ok [.log "backfill_seer_grouping_records.killswitch_enabled"] := by
  rcases h with h | h <;>
    simp [backfill_seer_grouping_records_for_project, h]

/-- Witness for C3 at a concrete environment with the global killswitch on. -/
theorem killswitch_makes_task_noop_witness :
    ((envGlobalKill.globalKillswitch = true ∨
        envGlobalKill.projectKillswitch 1 = true) ∧
      backfill_seer_grouping_records_for_project envGlobalKill 1 none
          (.ids [1, 2]) none true false
        = .ok [.log "backfill_seer_grouping_records.killswitch_enabled"]) :=
  ⟨Or.inl rfl,
    killswitch_makes_task_noop envGlobalKill 1 none (.ids [1, 2]) none true
      false (Or.inl rfl)⟩

/-- C7: with a null group cursor and a falsy cohort (`None`, empty string or
empty list), `call_next_backfill` only logs and enqueues nothing, whatever the
project index and whatever the cohort registry says — single-project mode
terminates without consulting either. -/
theorem no_cohort_terminates_walk (env : Env) (pid : Nat) (idx : Option Nat)
    (cohort : Cohort) (od ei : Bool) (h : cohort.falsy = true) :
    call_next_backfill env none pid idx cohort od ei
      = [.log "backfill finished, no cohort"] := by
  simp [call_next_backfill, h]

/-- Witness for C7: empty-list cohort, arbitrary index and registry. -/
theorem no_cohort_terminates_walk_witness :
    ((Cohort.ids []).falsy = true ∧
      call_next_backfill envGlobalKill none 7 (some 3) (.ids []) false true
        = [.log "backfill finished, no cohort"]) :=
  ⟨rfl, no_cohort_terminates_walk envGlobalKill 7 (some 3) (.ids []) false true
    rfl⟩

/-- C6: with a null group cursor and a truthy cohort, when the advanced
project index runs past the end of the cohort project list (no next project id
is produced), `call_next_backfill` only logs and enqueues no further task: the
cohort walk terminates. -/
theorem cohort_exhausted_terminates_walk (env : Env) (pid : Nat) (i : Nat)
    (cohort : Cohort) (od ei : Bool) (hc : cohort.falsy = false)
    (hend : (cohortProjectsOf env cohort).length ≤ i + 1) :
    call_next_backfill env none pid (some i) cohort od ei
      = [.log "reached the end of the project list"] := by
  have hg : get_project_for_batch (some i) (cohortProjectsOf env cohort)
      = (none, some (i + 1)) := by
    simp [get_project_for_batch, List.getElem?_eq_none hend]
  simp [call_next_backfill, hc, hg]

/-- Witness for C6: a two-project cohort with the index already at its end. -/
theorem cohort_exhausted_terminates_walk_witness :
    ((Cohort.ids [10, 20]).falsy = false ∧
      (cohortProjectsOf envGlobalKill (.ids [10, 20])).length ≤ 1 + 1 ∧
      call_next_backfill envGlobalKill none 20 (some 1) (.ids [10, 20])
          false false
        = [.log "reached the end of the project list"]) :=
  ⟨rfl, by decide,
    cohort_exhausted_terminates_walk envGlobalKill 20 1 (.ids [10, 20]) false
      false rfl (by decide)⟩

/-- C10: when project lookup raises `DoesNotExist` and
`last_processed_project_index_input` is `None`, the `assert` in the recovery
branch fails: the task raises `AssertionError` after logging instead of
recovering, so recovery is reachable only when a project index was supplied. -/
theorem missing_project_without_index_asserts (env : Env) (pid : Nat)
    (gin : Option Nat) (cohort : Cohort) (od ei : Bool)
    (hks : env.globalKillswitch = false)
    (hpk : env.projectKillswitch pid = false)
    (hinit : env.init pid gin none = .doesNotExist) :
    backfill_seer_grouping_records_for_project env pid gin cohort none od ei
      = .assertionError [.log "backfill_seer_grouping_records",
          .log "backfill_seer_grouping_records.project_does_not_exist"] := by
  simp [backfill_seer_grouping_records_for_project, hks, hpk, hinit]

/-- Witness for C10 at a concrete environment whose project lookup fails. -/
theorem missing_project_without_index_asserts_witness :
    (envNoProject.globalKillswitch = false ∧
      envNoProject.projectKillswitch 5 = false ∧
      envNoProject.init 5 none none = .doesNotExist ∧
      backfill_seer_grouping_records_for_project envNoProject 5 none
          (.name "c") none false false
        = .assertionError [.log "backfill_seer_grouping_records",
            .log "backfill_seer_grouping_records.project_does_not_exist"]) :=
  ⟨rfl, rfl, rfl,
    missing_project_without_index_asserts envNoProject 5 none (.name "c")
      false false rfl rfl rfl⟩

/-- C2: when project lookup raises `DoesNotExist` and a project index was
supplied, the task does not fail: it logs and immediately takes the exhaustion
transition, calling `call_next_backfill` with a null group cursor and the
input `last_processed_project_index`, exactly as for a batch that completed
with zero groups. -/
theorem missing_project_recovers_and_advances (env : Env) (pid : Nat)
    (gin : Option Nat) (cohort : Cohort) (i : Nat) (od ei : Bool)
    (hks : env.globalKillswitch = false)
    (hpk : env.projectKillswitch pid = false)
    (hinit : env.init pid gin (some i) = .doesNotExist) :
    backfill_seer_grouping_records_for_project env pid gin cohort (some i)
        od ei
      = .ok ([.log "backfill_seer_grouping_records",
          .log "backfill_seer_grouping_records.project_does_not_exist"]
          ++ call_next_backfill env none pid (some i) cohort od ei)
    ∧ (backfill_seer_grouping_records_for_project env pid gin cohort (some i)
        od ei).isOk = true := by
  constructor
  · simp [backfill_seer_grouping_records_for_project, hks, hpk, hinit]
  · simp [backfill_seer_grouping_records_for_project, hks, hpk, hinit,
      TaskResult.isOk]

/-- Witness for C2: deleted project inside a two-project cohort; the
continuation enqueues the next cohort project. -/
theorem missing_project_recovers_and_advances_witness :
    (envNoProject.globalKillswitch = false ∧
      envNoProject.projectKillswitch 10 = false ∧
      envNoProject.init 10 none (some 0) = .doesNotExist ∧
      (backfill_seer_grouping_records_for_project envNoProject 10 none
          (.ids [10, 20]) (some 0) false false
        = .ok ([.log "backfill_seer_grouping_records",
            .log "backfill_seer_grouping_records.project_does_not_exist"]
            ++ call_next_backfill envNoProject none 10 (some 0)
                (.ids [10, 20]) false false)
        ∧ (backfill_seer_grouping_records_for_project envNoProject 10 none
            (.ids [10, 20]) (some 0) false false).isOk = true)) :=
  ⟨rfl, rfl, rfl,
    missing_project_recovers_and_advances envNoProject 10 none (.ids [10, 20])
      0 false false rfl rfl rfl⟩

/-- C5: with `only_delete` true, past the gate and project lookup, the task
deletes all grouping records for the project and then takes the exhaustion
transition (`call_next_backfill` with a null group cursor); it performs no
batch work at all — in particular no similarity call and no result
write-back appear in the trace. -/
theorem only_delete_deletes_and_advances (env : Env) (pid : Nat)
    (gin : Option Nat) (cohort : Cohort) (iin : Option Nat) (ei : Bool)
    (gid idx : Option Nat)
    (hks : env.globalKillswitch = false)
    (hpk : env.projectKillswitch pid = false)
    (hinit : env.init pid gin iin = .ok gid idx) :
    backfill_seer_grouping_records_for_project env pid gin cohort iin true ei
      = .ok ([.log "backfill_seer_grouping_records", .deleteRecords pid,
          .log "backfill_seer_grouping_records.deleted_all_records"]
          ++ call_next_backfill env none pid idx cohort true ei)
    ∧ (∀ b gs p, Effect.seerCall b gs p ∉
        (backfill_seer_grouping_records_for_project env pid gin cohort iin
          true ei).effects)
    ∧ (∀ p gs, Effect.updateGroups p gs ∉
        (backfill_seer_grouping_records_for_project env pid gin cohort iin
          true ei).effects) := by
  have htr : backfill_seer_grouping_records_for_project env pid gin cohort iin
      true ei
      = .ok ([.log "backfill_seer_grouping_records", .deleteRecords pid,
          .log "backfill_seer_grouping_records.deleted_all_records"]
          ++ call_next_backfill env none pid idx cohort true ei) := by
    simp [backfill_seer_grouping_records_for_project, hks, hpk, hinit]
  refine ⟨htr, fun b gs p hmem => ?_, fun p gs hmem => ?_⟩
  · rw [htr] at hmem
    simp [TaskResult.effects] at hmem
    exact seerCall_not_mem_call_next env none pid idx cohort true ei b gs p hmem
  · rw [htr] at hmem
    simp [TaskResult.effects] at hmem
    exact updateGroups_not_mem_call_next env none pid idx cohort true ei gs p
      hmem

/-- Witness for C5 at a concrete environment and a two-project cohort. -/
theorem only_delete_deletes_and_advances_witness :
    (envRun.globalKillswitch = false ∧ envRun.projectKillswitch 10 = false ∧
      envRun.init 10 none (some 0) = .ok none (some 0) ∧
      (backfill_seer_grouping_records_for_project envRun 10 none
          (.ids [10, 20]) (some 0) true false
        = .ok ([.log "backfill_seer_grouping_records", .deleteRecords 10,
            .log "backfill_seer_grouping_records.deleted_all_records"]
            ++ call_next_backfill envRun none 10 (some 0) (.ids [10, 20])
                true false)
        ∧ (∀ b gs p, Effect.seerCall b gs p ∉
            (backfill_seer_grouping_records_for_project envRun 10 none
              (.ids [10, 20]) (some 0) true false).effects)
        ∧ (∀ p gs, Effect.updateGroups p gs ∉
            (backfill_seer_grouping_records_for_project envRun 10 none
              (.ids [10, 20]) (some 0) true false).effects))) :=
  ⟨rfl, rfl, rfl,
    only_delete_deletes_and_advances envRun 10 none (.ids [10, 20]) (some 0)
      false none (some 0) rfl rfl rfl⟩

/-- C4: past the gate with `only_delete` false, if the selected batch is empty
or every selected group is filtered out by the snuba phase or by the
nodestore phase, the task immediately schedules the continuation with the
advanced cursor `batch_end_id` and performs no similarity call and no
write-back this invocation. -/
theorem empty_or_filtered_batch_advances (env : Env) (pid : Nat)
    (gin : Option Nat) (cohort : Cohort) (iin : Option Nat) (ei : Bool)
    (gid idx : Option Nat)
    (hks : env.globalKillswitch = false)
    (hpk : env.projectKillswitch pid = false)
    (hinit : env.init pid gin iin = .ok gid idx)
    (hempty : (env.getBatch pid gid env.batchSize ei).1 = []
      ∨ filter_snuba_results env (env.getBatch pid gid env.batchSize ei).1 = []
      ∨ nodestore_group_hashes env
          (filter_snuba_results env
            (env.getBatch pid gid env.batchSize ei).1) = []) :
    backfill_seer_grouping_records_for_project env pid gin cohort iin false ei
      = .ok ([.log "backfill_seer_grouping_records"]
          ++ call_next_backfill env (env.getBatch pid gid env.batchSize ei).2
              pid idx cohort false ei)
    ∧ (∀ b gs p, Effect.seerCall b gs p ∉
        (backfill_seer_grouping_records_for_project env pid gin cohort iin
          false ei).effects)
    ∧ (∀ p gs, Effect.updateGroups p gs ∉
        (backfill_seer_grouping_records_for_project env pid gin cohort iin
          false ei).effects) := by
  have htr : backfill_seer_grouping_records_for_project env pid gin cohort iin
      false ei
      = .ok ([.log "backfill_seer_grouping_records"]
          ++ call_next_backfill env (env.getBatch pid gid env.batchSize ei).2
              pid idx cohort false ei) := by
    rcases hempty with h0 | h1 | h2
    · simp [backfill_seer_grouping_records_for_project, hks, hpk, hinit, h0]
    · by_cases h0 : (env.getBatch pid gid env.batchSize ei).1 = []
      · simp [backfill_seer_grouping_records_for_project, hks, hpk, hinit, h0]
      · simp [backfill_seer_grouping_records_for_project, hks, hpk, hinit,
          h0, h1]
    · by_cases h0 : (env.getBatch pid gid env.batchSize ei).1 = []
      · simp [backfill_seer_grouping_records_for_project, hks, hpk, hinit, h0]
      · by_cases h1 : filter_snuba_results env
            (env.getBatch pid gid env.batchSize ei).1 = []
        · simp [backfill_seer_grouping_records_for_project, hks, hpk, hinit,
            h0, h1]
        · simp [backfill_seer_grouping_records_for_project, hks, hpk, hinit,
            h0, h1, h2]
  refine ⟨htr, fun b gs p hmem => ?_, fun p gs hmem => ?_⟩
  · rw [htr] at hmem
    simp [TaskResult.effects] at hmem
    exact seerCall_not_mem_call_next env
      (env.getBatch pid gid env.batchSize ei).2 pid idx cohort false ei b gs p
      hmem
  · rw [htr] at hmem
    simp [TaskResult.effects] at hmem
    exact updateGroups_not_mem_call_next env
      (env.getBatch pid gid env.batchSize ei).2 pid idx cohort false ei gs p
      hmem

/-- Witness for C4 at a concrete environment with an empty batch. -/
theorem empty_or_filtered_batch_advances_witness :
    (envEmptyBatch.globalKillswitch = false ∧
      envEmptyBatch.projectKillswitch 10 = false ∧
      envEmptyBatch.init 10 none (some 0) = .ok none (some 0) ∧
      ((envEmptyBatch.getBatch 10 none envEmptyBatch.batchSize false).1 = []
        ∨ filter_snuba_results envEmptyBatch
            (envEmptyBatch.getBatch 10 none envEmptyBatch.batchSize false).1
            = []
        ∨ nodestore_group_hashes envEmptyBatch
            (filter_snuba_results envEmptyBatch
              (envEmptyBatch.getBatch 10 none envEmptyBatch.batchSize
                false).1) = []) ∧
      (backfill_seer_grouping_records_for_project envEmptyBatch 10 none
          (.ids [10, 20]) (some 0) false false
        = .ok ([.log "backfill_seer_grouping_records"]
            ++ call_next_backfill envEmptyBatch
                (envEmptyBatch.getBatch 10 none envEmptyBatch.batchSize
                  false).2 10 (some 0) (.ids [10, 20]) false false)
        ∧ (∀ b gs p, Effect.seerCall b gs p ∉
            (backfill_seer_grouping_records_for_project envEmptyBatch 10 none
              (.ids [10, 20]) (some 0) false false).effects)
        ∧ (∀ p gs, Effect.updateGroups p gs ∉
            (backfill_seer_grouping_records_for_project envEmptyBatch 10 none
              (.ids [10, 20]) (some 0) false false).effects))) :=
  ⟨rfl, rfl, rfl, Or.inl rfl,
    empty_or_filtered_batch_advances envEmptyBatch 10 none (.ids [10, 20])
      (some 0) false none (some 0) rfl rfl rfl (Or.inl rfl)⟩

/-- C1: when the similarity response for the batch has a falsy success flag,
the invocation ends with the seer-failed log line and the exception capture:
no `update_groups` write-back appears in the trace, no continuation task is
enqueued, and the task returns normally — the group cursor is never handed to
a next invocation, so it does not advance past the failed batch. -/
theorem seer_failure_skips_writeback_and_continuation (env : Env) (pid : Nat)
    (gin : Option Nat) (cohort : Cohort) (iin : Option Nat) (ei : Bool)
    (gid idx : Option Nat)
    (hks : env.globalKillswitch = false)
    (hpk : env.projectKillswitch pid = false)
    (hinit : env.init pid gin iin = .ok gid idx)
    (h0 : (env.getBatch pid gid env.batchSize ei).1 ≠ [])
    (h1 : filter_snuba_results env
        (env.getBatch pid gid env.batchSize ei).1 ≠ [])
    (h2 : nodestore_group_hashes env
        (filter_snuba_results env
          (env.getBatch pid gid env.batchSize ei).1) ≠ [])
    (hfail : (seerStep env (groups_has_snuba_row_and_nodestore_row env
        (filter_snuba_results env
          (env.getBatch pid gid env.batchSize ei).1))).success = false) :
    backfill_seer_grouping_records_for_project env pid gin cohort iin false ei
      = .ok [.log "backfill_seer_grouping_records",
          .seerCall (env.seerThreads > 1)
            (groups_has_snuba_row_and_nodestore_row env
              (filter_snuba_results env
                (env.getBatch pid gid env.batchSize ei).1)) pid,
          .log "backfill_seer_grouping_records.seer_failed",
          .captureException]
    ∧ (∀ p gs, Effect.updateGroups p gs ∉
        (backfill_seer_grouping_records_for_project env pid gin cohort iin
          false ei).effects)
    ∧ (∀ p g c i o en, Effect.enqueue p g c i o en ∉
        (backfill_seer_grouping_records_for_project env pid gin cohort iin
          false ei).effects)
    ∧ Effect.captureException ∈
        (backfill_seer_grouping_records_for_project env pid gin cohort iin
          false ei).effects := by
  have htr : backfill_seer_grouping_records_for_project env pid gin cohort iin
      false ei
      = .ok [.log "backfill_seer_grouping_records",
          .seerCall (env.seerThreads > 1)
            (groups_has_snuba_row_and_nodestore_row env
              (filter_snuba_results env
                (env.getBatch pid gid env.batchSize ei).1)) pid,
          .log "backfill_seer_grouping_records.seer_failed",
          .captureException] := by
    simp [backfill_seer_grouping_records_for_project, hks, hpk, hinit,
      h0, h1, h2, hfail]
  refine ⟨htr, fun p gs hmem => ?_, fun p g c i o en hmem => ?_, ?_⟩
  · rw [htr] at hmem
    simp [TaskResult.effects] at hmem
  · rw [htr] at hmem
    simp [TaskResult.effects] at hmem
  · rw [htr]
    simp [TaskResult.effects]

/-- Witness for C1 at a concrete environment in which the seer call for
group 5 fails. -/
theorem seer_failure_skips_writeback_and_continuation_witness :
    (envRun.globalKillswitch = false ∧ envRun.projectKillswitch 10 = false ∧
      envRun.init 10 none (some 0) = .ok none (some 0) ∧
      (envRun.getBatch 10 none envRun.batchSize false).1 ≠ [] ∧
      filter_snuba_results envRun
          (envRun.getBatch 10 none envRun.batchSize false).1 ≠ [] ∧
      nodestore_group_hashes envRun
          (filter_snuba_results envRun
            (envRun.getBatch 10 none envRun.batchSize false).1) ≠ [] ∧
      (seerStep envRun (groups_has_snuba_row_and_nodestore_row envRun
          (filter_snuba_results envRun
            (envRun.getBatch 10 none envRun.batchSize false).1))).success
        = false ∧
      (backfill_seer_grouping_records_for_project envRun 10 none .noCohort
          (some 0) false false
        = .ok [.log "backfill_seer_grouping_records",
            .seerCall (envRun.seerThreads > 1)
              (groups_has_snuba_row_and_nodestore_row envRun
                (filter_snuba_results envRun
                  (envRun.getBatch 10 none envRun.batchSize false).1)) 10,
            .log "backfill_seer_grouping_records.seer_failed",
            .captureException]
        ∧ (∀ p gs, Effect.updateGroups p gs ∉
            (backfill_seer_grouping_records_for_project envRun 10 none
              .noCohort (some 0) false false).effects)
        ∧ (∀ p g c i o en, Effect.enqueue p g c i o en ∉
            (backfill_seer_grouping_records_for_project envRun 10 none
              .noCohort (some 0) false false).effects)
        ∧ Effect.captureException ∈
            (backfill_seer_grouping_records_for_project envRun 10 none
              .noCohort (some 0) false false).effects)) :=
  ⟨rfl, rfl, rfl, by decide, by decide, by decide, by decide,
    seer_failure_skips_writeback_and_continuation envRun 10 none .noCohort
      (some 0) false none (some 0) rfl rfl rfl (by decide) (by decide)
      (by decide) (by decide)⟩

/-- C8: the group ids handed to the similarity client are exactly the batch
groups that both survived the snuba row filter and have an entry in the
nodestore group-hashes mapping; every group sent therefore has a resolvable
snapshot in both stores, and groups missing data in either store were
silently dropped. -/
theorem seer_receives_doubly_filtered_batch (env : Env) (pid : Nat)
    (gin : Option Nat) (cohort : Cohort) (iin : Option Nat) (ei : Bool)
    (gid idx : Option Nat)
    (hks : env.globalKillswitch = false)
    (hpk : env.projectKillswitch pid = false)
    (hinit : env.init pid gin iin = .ok gid idx)
    (h0 : (env.getBatch pid gid env.batchSize ei).1 ≠ [])
    (h1 : filter_snuba_results env
        (env.getBatch pid gid env.batchSize ei).1 ≠ [])
    (h2 : nodestore_group_hashes env
        (filter_snuba_results env
          (env.getBatch pid gid env.batchSize ei).1) ≠ []) :
    Effect.seerCall (env.seerThreads > 1)
        ((env.getBatch pid gid env.batchSize ei).1.filter
          fun g => env.snubaHasRow g && env.nodestoreHasEvent g) pid
      ∈ (backfill_seer_grouping_records_for_project env pid gin cohort iin
          false ei).effects
    ∧ ∀ g ∈ (env.getBatch pid gid env.batchSize ei).1.filter
          fun g => env.snubaHasRow g && env.nodestoreHasEvent g,
        env.snubaHasRow g = true ∧ env.nodestoreHasEvent g = true := by
  constructor
  · rw [← groups_has_both_rows_eq env
      (env.getBatch pid gid env.batchSize ei).1]
    cases hs : (seerStep env (groups_has_snuba_row_and_nodestore_row env
        (filter_snuba_results env
          (env.getBatch pid gid env.batchSize ei).1))).success with
    | true =>
        simp [backfill_seer_grouping_records_for_project, hks, hpk, hinit,
          h0, h1, h2, hs, TaskResult.effects]
    | false =>
        simp [backfill_seer_grouping_records_for_project, hks, hpk, hinit,
          h0, h1, h2, hs, TaskResult.effects]
  · intro g hg
    simp only [List.mem_filter, Bool.and_eq_true] at hg
    exact hg.2

/-- Witness for C8: in the concrete run groups 2 and 3 are dropped and the
seer call receives exactly groups 1 and 5. -/
theorem seer_receives_doubly_filtered_batch_witness :
    (envRun.globalKillswitch = false ∧ envRun.projectKillswitch 11 = false ∧
      envRun.init 11 none (some 0) = .ok none (some 0) ∧
      (envRun.getBatch 11 none envRun.batchSize false).1 ≠ [] ∧
      filter_snuba_results envRun
          (envRun.getBatch 11 none envRun.batchSize false).1 ≠ [] ∧
      nodestore_group_hashes envRun
          (filter_snuba_results envRun
            (envRun.getBatch 11 none envRun.batchSize false).1) ≠ [] ∧
      (Effect.seerCall (envRun.seerThreads > 1)
          ((envRun.getBatch 11 none envRun.batchSize false).1.filter
            fun g => envRun.snubaHasRow g && envRun.nodestoreHasEvent g) 11
        ∈ (backfill_seer_grouping_records_for_project envRun 11 none
            .noCohort (some 0) false false).effects
      ∧ ∀ g ∈ (envRun.getBatch 11 none envRun.batchSize false).1.filter
            fun g => envRun.snubaHasRow g && envRun.nodestoreHasEvent g,
          envRun.snubaHasRow g = true ∧ envRun.nodestoreHasEvent g = true)) :=
  ⟨rfl, rfl, rfl, by decide, by decide, by decide,
    seer_receives_doubly_filtered_batch envRun 11 none .noCohort (some 0)
      false none (some 0) rfl rfl rfl (by decide) (by decide) (by decide)⟩

/-- C9: the sequential and worker-pool similarity senders are
contract-equivalent.  The seer dispatch `seerStep` selects the multithreaded
sender exactly when the configured thread count exceeds 1 and the sequential
sender otherwise, applying both to the same per-group service and the same
eligible group ids; and whenever the worker completion order is a permutation
of the dispatched duplicate-free group ids, the dispatched call has the same
success flag, the same reason, and the same group-to-outcome mapping as the
sequential sender — independent of the completion order. -/
theorem seer_sender_modes_equivalent (env : Env) (groupIds : List Nat)
    (hperm : (env.completionOrder groupIds).Perm groupIds)
    (hnd : groupIds.Nodup) :
    ((seerStep env groupIds).success
        = (send_group_and_stacktrace_to_seer env.svc groupIds).success)
    ∧ ((seerStep env groupIds).reason
        = (send_group_and_stacktrace_to_seer env.svc groupIds).reason)
    ∧ (∀ g : Nat, List.lookup g (seerStep env groupIds).results
        = List.lookup g
            (send_group_and_stacktrace_to_seer env.svc groupIds).results)
    ∧ (1 < env.seerThreads →
        seerStep env groupIds
          = send_group_and_stacktrace_to_seer_multithreaded env.svc
              (env.completionOrder groupIds))
    ∧ (¬ 1 < env.seerThreads →
        seerStep env groupIds
          = send_group_and_stacktrace_to_seer env.svc groupIds) := by
  by_cases ht : 1 < env.seerThreads
  · have hstep : seerStep env groupIds
        = send_group_and_stacktrace_to_seer_multithreaded env.svc
            (env.completionOrder groupIds) := by
      simp [seerStep, ht]
    have hall : (env.completionOrder groupIds).all
          (fun g => (env.svc g).isSome)
        = groupIds.all fun g => (env.svc g).isSome :=
      all_eq_of_perm _ hperm
    refine ⟨?_, ?_, ?_, fun _ => hstep, fun h => absurd ht h⟩
    · rw [hstep]
      simp only [send_group_and_stacktrace_to_seer_multithreaded,
        send_group_and_stacktrace_to_seer]
      exact hall
    · rw [hstep]
      simp only [send_group_and_stacktrace_to_seer_multithreaded,
        send_group_and_stacktrace_to_seer]
      rw [hall]
    · intro g
      rw [hstep]
      simp only [send_group_and_stacktrace_to_seer_multithreaded,
        send_group_and_stacktrace_to_seer]
      have hndc : (((env.completionOrder groupIds).filterMap
          fun g => (env.svc g).map fun o => (g, o)).map Prod.fst).Nodup := by
        rw [map_fst_seer_results]
        exact (hperm.nodup_iff.mpr hnd).filter _
      exact lookup_eq_of_perm
        (hperm.filterMap fun g => (env.svc g).map fun o => (g, o)) hndc g
  · have hstep : seerStep env groupIds
        = send_group_and_stacktrace_to_seer env.svc groupIds := by
      simp [seerStep, ht]
    exact ⟨by rw [hstep], by rw [hstep], fun g => by rw [hstep],
      fun h => absurd h ht, fun _ => hstep⟩

/-- Witness for C9: four threads, three dispatched groups, reverse completion
order, with the call for group 5 failing. -/
theorem seer_sender_modes_equivalent_witness :
    ((envRun.completionOrder [4, 5, 6]).Perm [4, 5, 6] ∧
      ([4, 5, 6] : List Nat).Nodup ∧
      (((seerStep envRun [4, 5, 6]).success
          = (send_group_and_stacktrace_to_seer envRun.svc [4, 5, 6]).success)
      ∧ ((seerStep envRun [4, 5, 6]).reason
          = (send_group_and_stacktrace_to_seer envRun.svc [4, 5, 6]).reason)
      ∧ (∀ g : Nat, List.lookup g (seerStep envRun [4, 5, 6]).results
          = List.lookup g
              (send_group_and_stacktrace_to_seer envRun.svc
                [4, 5, 6]).results)
      ∧ (1 < envRun.seerThreads →
          seerStep envRun [4, 5, 6]
            = send_group_and_stacktrace_to_seer_multithreaded envRun.svc
                (envRun.completionOrder [4, 5, 6]))
      ∧ (¬ 1 < envRun.seerThreads →
          seerStep envRun [4, 5, 6]
            = send_group_and_stacktrace_to_seer envRun.svc [4, 5, 6]))) :=
  ⟨by decide, by decide,
    seer_sender_modes_equivalent envRun [4, 5, 6] (by decide) (by decide)⟩

end Backfill
